import Mathlib

/-!
Shallow embedding of the EPIC test backend (`src/main.py`, `src/schemas.py`).

Conventions of the embedding:
* The Mongo-style document store is a `Store`: one Lean list per collection,
  in insertion order (Mongo natural order), plus a counter generating fresh
  `_id` values (ObjectIds are modelled as the natural number given by their
  12-byte big-endian value; their 24-hex-digit string form is `objectIdHex`).
* Wall-clock instants (`datetime.now(timezone.utc)`) are a `Nat` parameter
  `now`; the current calendar date used by `strftime('%d-%m-%Y')` is a
  `Date` parameter `today`.
* Python `float` values (the `score` field) appear in the code only inside
  f-strings, so they are modelled by their decimal rendering as a `String`.
* A handler takes the request data and the current `Store` and returns the
  resulting `Store` (mutations performed before an exception are kept, as in
  the real code, where each DB write commits immediately) together with
  `Except HandlerErr resp`: `HandlerErr.http` is a raised `HTTPException`,
  `HandlerErr.uncaught` is any other exception escaping the handler (FastAPI
  turns those into a 500 response).
* Pydantic `EmailStr` (third-party, backed by the email-validator package's
  syntax check) is modelled by `isValidEmail`, a documented and, on rare edge
  inputs, slightly stricter rendering of those syntax rules; it is enforced
  exactly where the code constructs `Student(...)` (main.py line 42) and
  `Payment(...)` (main.py line 59), and nowhere else.
-/

/-! ## Small utilities -/

/-- Update the first element of a list satisfying `pred` (the semantics of
Mongo `update_one`: at most one document is modified, the first match in
natural order). -/
def updateFirst (pred : α → Bool) (f : α → α) : List α → List α
  | [] => []
  | x :: xs => if pred x then f x :: xs else x :: updateFirst pred f xs

/-- Python truthiness of an optional string: `None` and `""` are falsy. -/
def pyTruthy : Option String → Bool
  | none => false
  | some s => !(s == "")

/-- Python f-string rendering of an `int`-or-`None` value (`None` renders as
the text `None`). -/
def pyOptInt : Option Int → String
  | some i => toString i
  | none => "None"

/-- Python f-string rendering of a value already rendered as a string, or
`None`. -/
def pyOptStr : Option String → String
  | some s => s
  | none => "None"

/-- Calendar date, for `datetime.now().strftime('%d-%m-%Y')`. -/
structure Date where
  day : Nat
  month : Nat
  year : Nat
deriving DecidableEq, Repr

/-- Zero-padded two-digit rendering, as `%d` / `%m`. -/
def pad2 (n : Nat) : String := if n < 10 then "0" ++ toString n else toString n

/-- `strftime('%d-%m-%Y')`. -/
def formatDMY (d : Date) : String :=
  pad2 d.day ++ "-" ++ pad2 d.month ++ "-" ++ toString d.year

/-! ## Hex / ObjectId -/

/-- Value of one hexadecimal digit. -/
def hexVal (c : Char) : Option Nat :=
  if '0' ≤ c ∧ c ≤ '9' then some (c.toNat - '0'.toNat)
  else if 'a' ≤ c ∧ c ≤ 'f' then some (c.toNat - 'a'.toNat + 10)
  else if 'A' ≤ c ∧ c ≤ 'F' then some (c.toNat - 'A'.toNat + 10)
  else none

/-- Big-endian hex string to number. -/
def parseHexAux : Nat → List Char → Option Nat
  | acc, [] => some acc
  | acc, c :: cs =>
    match hexVal c with
    | some v => parseHexAux (acc * 16 + v) cs
    | none => none

/-- `bson.ObjectId(s)` for a `str` argument: accepted exactly when `s` is a
24-character hexadecimal string (then its 12-byte value); any other string
raises `bson.errors.InvalidId`. -/
def parseObjectId (s : String) : Option Nat :=
  if s.length = 24 then parseHexAux 0 s.data else none

/-- Lowercase hex digit. -/
def hexDigitChar (n : Nat) : Char :=
  "0123456789abcdef".data.getD n '0'

/-- `n` rendered as `w` lowercase hex digits, big-endian. -/
def toHexAux : Nat → Nat → List Char
  | 0, _ => []
  | w + 1, v => toHexAux w (v / 16) ++ [hexDigitChar (v % 16)]

/-- `str(ObjectId)`: the 24-hex-digit form of a document id. -/
def objectIdHex (n : Nat) : String := String.mk (toHexAux 24 n)

/-! ## Base64 (`base64.b64encode` / standard decoding) -/

/-- The standard base64 alphabet. -/
def b64Chars : List Char :=
  "ABCDEFGHIJKLMNOPQRSTUVWXYZabcdefghijklmnopqrstuvwxyz0123456789+/".data

/-- Sextet to base64 character. -/
def b64Char (n : Nat) : Char := b64Chars.getD n 'A'

/-- Index of a character in a list. -/
def idxOf? : List Char → Char → Option Nat
  | [], _ => none
  | x :: xs, c => if x = c then some 0 else (idxOf? xs c).map (· + 1)

/-- Base64 character to sextet. -/
def b64Index (c : Char) : Option Nat := idxOf? b64Chars c

/-- `base64.b64encode` on a byte list (each byte `< 256`), producing the
padded character stream. -/
def base64Encode : List Nat → List Char
  | [] => []
  | [a] => [b64Char (a / 4), b64Char (a % 4 * 16), '=', '=']
  | [a, b] => [b64Char (a / 4), b64Char (a % 4 * 16 + b / 16), b64Char (b % 16 * 4), '=']
  | a :: b :: c :: rest =>
    b64Char (a / 4) :: b64Char (a % 4 * 16 + b / 16) ::
    b64Char (b % 16 * 4 + c / 64) :: b64Char (c % 64) :: base64Encode rest

/-- Standard base64 decoding of a padded character stream back to bytes. -/
def base64Decode : List Char → Option (List Nat)
  | [] => some []
  | c1 :: c2 :: c3 :: c4 :: rest =>
    match b64Index c1, b64Index c2 with
    | some i1, some i2 =>
      if c3 = '=' then
        if c4 = '=' then
          if rest = [] then some [i1 * 4 + i2 / 16] else none
        else none
      else
        match b64Index c3 with
        | some i3 =>
          if c4 = '=' then
            if rest = [] then some [i1 * 4 + i2 / 16, i2 % 16 * 16 + i3 / 4] else none
          else
            match b64Index c4 with
            | some i4 =>
              match base64Decode rest with
              | some bs =>
                some ((i1 * 4 + i2 / 16) :: (i2 % 16 * 16 + i3 / 4) :: (i3 % 4 * 64 + i4) :: bs)
              | none => none
            | none => none
        | none => none
    | _, _ => none
  | _ => none

/-! ## UTF-8 (`str.encode("utf-8")`) -/

/-- UTF-8 encoding of a single code point, as byte values. -/
def utf8EncodeChar (c : Char) : List Nat :=
  let n := c.toNat
  if n < 128 then [n]
  else if n < 2048 then [192 + n / 64, 128 + n % 64]
  else if n < 65536 then [224 + n / 4096, 128 + n / 64 % 64, 128 + n % 64]
  else [240 + n / 262144, 128 + n / 4096 % 64, 128 + n / 64 % 64, 128 + n % 64]

/-- `s.encode("utf-8")` as a byte list. -/
def strBytes (s : String) : List Nat := s.data.flatMap utf8EncodeChar

/-! ## Data model (`src/schemas.py` plus store-injected fields) -/

/-- A stored `student` document. -/
structure StudentDoc where
  sid : Nat
  created_at : Nat
  npm : String
  name : String
  email : String
  updated_at : Option Nat := none
deriving DecidableEq, Repr

/-- A stored `payment` document (`schemas.Payment` plus `_id`/`created_at`). -/
structure PaymentDoc where
  pid : Nat
  created_at : Nat
  npm : String
  name : String
  email : String
  file_name : Option String := none
  file_mime : Option String := none
  file_data_b64 : Option String := none
  status : String := "pending"
  verified_by : Option String := none
  verified_at : Option Nat := none
deriving DecidableEq, Repr

/-- A stored `test` document. `attempt`, `score`, `taken_at` are optional at
the document level: `student_history` defends against their absence with
`t.get(...)`, and Mongo documents carry no schema. -/
structure TestDoc where
  tid : Nat
  created_at : Nat
  npm : String
  attempt : Option Int := none
  score : Option String := none
  status : String
  taken_at : Option Nat := none
deriving DecidableEq, Repr

/-- A stored `certificate` document. -/
structure CertDoc where
  cid : Nat
  created_at : Nat
  npm : String
  attempt : Option Int := none
  issued_at : Option Nat := none
deriving DecidableEq, Repr

/-- The document store: one list per collection, in insertion (natural)
order, plus the fresh-id counter. -/
structure Store where
  students : List StudentDoc := []
  payments : List PaymentDoc := []
  tests : List TestDoc := []
  certificates : List CertDoc := []
  nextId : Nat := 0
deriving DecidableEq, Repr

/-- The empty store. -/
def emptyStore : Store := {}

/-! ## Document store adapter

`database.py` is not part of `src/`; the four `create*Doc` functions are
modelled from the spec. -/

/-- Modelled from the spec: `database.py` (absent from `src/`) §4.1 —
`create_document(collection, record)` serializes the record's fields into the
named collection, injects a creation timestamp, and returns a newly generated
identifier. This is the instance for the `student` collection. -/
def createStudentDoc (s : Store) (now : Nat) (npm name email : String) : Store × Nat :=
  ({ s with
      students := s.students ++ [{ sid := s.nextId, created_at := now,
                                   npm := npm, name := name, email := email }],
      nextId := s.nextId + 1 }, s.nextId)

/-- Modelled from the spec: `database.py` §4.1 `create_document` for the
`payment` collection. -/
def createPaymentDoc (s : Store) (now : Nat) (npm name email : String)
    (file_name file_mime file_data_b64 : Option String) : Store × Nat :=
  ({ s with
      payments := s.payments ++ [{ pid := s.nextId, created_at := now,
                                   npm := npm, name := name, email := email,
                                   file_name := file_name, file_mime := file_mime,
                                   file_data_b64 := file_data_b64, status := "pending" }],
      nextId := s.nextId + 1 }, s.nextId)

/-- Modelled from the spec: `database.py` §4.1 `create_document` for the
`test` collection. -/
def createTestDoc (s : Store) (now : Nat) (npm : String) (attempt : Option Int)
    (score : Option String) (status : String) (taken_at : Option Nat) : Store × Nat :=
  ({ s with
      tests := s.tests ++ [{ tid := s.nextId, created_at := now, npm := npm,
                             attempt := attempt, score := score, status := status,
                             taken_at := taken_at }],
      nextId := s.nextId + 1 }, s.nextId)

/-- Modelled from the spec: `database.py` §4.1 `create_document` for the
`certificate` collection. -/
def createCertDoc (s : Store) (now : Nat) (npm : String) (attempt : Option Int)
    (issued_at : Option Nat) : Store × Nat :=
  ({ s with
      certificates := s.certificates ++ [{ cid := s.nextId, created_at := now,
                                           npm := npm, attempt := attempt,
                                           issued_at := issued_at }],
      nextId := s.nextId + 1 }, s.nextId)

/-! ## Error and response shapes -/

/-- Outcome of a handler that does not return normally. -/
inductive HandlerErr where
  | http (code : Nat) (detail : String)
  | uncaught (msg : String)
deriving DecidableEq, Repr

/-- Does an `Except` hold an `HTTPException` with the given status code? -/
def isHttpCode (code : Nat) : Except HandlerErr α → Bool
  | Except.error (HandlerErr.http c _) => c == code
  | _ => false

/-- Response of `POST /registrations`. -/
structure RegResp where
  message : String
  payment_id : String
deriving DecidableEq, Repr

/-- One entry of the `GET /admin/pending` response. -/
structure PendingEntry where
  _id : String
  npm : String
  name : String
  email : String
  file_url : Option String
deriving DecidableEq, Repr

/-- Response of `GET /admin/pending`. -/
structure PendingResp where
  payments : List PendingEntry
deriving DecidableEq, Repr

/-- Response of `POST /admin/verify/{payment_id}`. -/
structure VerifyResp where
  ok : Bool
deriving DecidableEq, Repr

/-- Request body of `POST /admin/result` (`ResultBody` in `main.py`; `score`
is a Python float, modelled by its decimal rendering). -/
structure ResultBody where
  npm : String
  attempt : Int
  score : String
  status : String
deriving DecidableEq, Repr

/-- Response of `POST /admin/result`. -/
structure ResultResp where
  ok : Bool
  certificate_url : Option String
deriving DecidableEq, Repr

/-- One entry of the `GET /students/{npm}/history` response. -/
structure HistEntry where
  id : String
  attempt : Option Int
  score : Option String
  status : String
  taken_at : Option Nat
  certificate_url : Option String
deriving DecidableEq, Repr

/-- Response of `GET /students/{npm}/history`. -/
structure HistoryResp where
  tests : List HistEntry
deriving DecidableEq, Repr

/-! ## Handlers (`src/main.py`) -/

/-- An uploaded file as FastAPI hands it to the handler. -/
structure FilePart where
  filename : Option String := none
  content_type : Option String := none
  bytes : List Nat := []
deriving DecidableEq, Repr

/-- `payment_proof.content_type or "application/octet-stream"`
(main.py line 51; `or` treats `None` and `""` as absent). -/
def normalizeMime : Option String → String
  | some m => if m = "" then "application/octet-stream" else m
  | none => "application/octet-stream"

/-- The MIME allow-list (main.py line 52). -/
def allowedMimes : List String := ["image/jpeg", "image/png", "application/pdf"]

/-- RFC 5322 `atext` characters (ASCII), the ones accepted inside a dot-atom
local part; listed by code point to keep the source free of quotable
punctuation. -/
def isAtext (c : Char) : Bool :=
  c.isAlpha || c.isDigit ||
  [33, 35, 36, 37, 38, 39, 42, 43, 45, 47, 61, 63, 94, 95, 96, 123, 124, 125, 126].contains c.toNat

/-- Split a character list at its single `@`; `none` when the number of `@`
occurrences is not exactly one. -/
def splitOnAt : List Char → Option (List Char × List Char)
  | [] => none
  | c :: cs =>
    if c = '@' then
      if cs.contains '@' then none else some ([], cs)
    else
      match splitOnAt cs with
      | some (l, d) => some (c :: l, d)
      | none => none

/-- Split a character list on `.` boundaries, keeping empty segments (so a
leading, trailing or doubled dot shows up as an empty segment). -/
def splitOnDot : List Char → List (List Char)
  | [] => [[]]
  | c :: cs =>
    if c = '.' then [] :: splitOnDot cs
    else
      match splitOnDot cs with
      | r :: rs => (c :: r) :: rs
      | [] => [[c]]

/-- One hostname label: 1 to 63 characters, alphanumeric or hyphen, with no
hyphen at either end. -/
def validLabel (l : List Char) : Bool :=
  decide (1 ≤ l.length) && decide (l.length ≤ 63)
  && l.all (fun c => c.isAlphanum || c = '-')
  && !(l.head? == some '-') && !(l.getLast? == some '-')

/-- Pydantic `EmailStr`: the schemas validate `email` through the third-party
email-validator package (syntax check only, deliverability off). Modelled
from its documented rules: exactly one `@`; a non-empty dot-atom local part
of at most 64 `atext` characters with no leading, trailing or doubled dot;
a domain of at most 253 characters made of at least two labels (so it
contains a period), each a `validLabel`, the final one containing a letter.
Where this rendering and the library disagree on rare edge inputs it is the
stricter one, so hypotheses of the form `isValidEmail email = true` stay
inside the set the library accepts. -/
def isValidEmail (s : String) : Bool :=
  match splitOnAt s.data with
  | none => false
  | some (l, d) =>
    let localParts := splitOnDot l
    let labels := splitOnDot d
    decide (1 ≤ l.length) && decide (l.length ≤ 64)
    && localParts.all (fun p => !p.isEmpty && p.all isAtext)
    && decide (d.length ≤ 253)
    && decide (2 ≤ labels.length)
    && labels.all validLabel
    && (match labels.getLast? with
        | some t => t.any (fun c => c.isAlpha)
        | none => false)

/-- Lines 46-70 of `create_registration`: the optional file is checked
against the MIME allow-list and retained base64-encoded, then `Payment(...)`
(main.py line 59) is constructed — validating `EmailStr` — and stored. A
failing construction escapes as an uncaught pydantic error, after the
student upsert has already committed. -/
def registrationPaymentStep (npm name email : String)
    (payment_proof : Option FilePart) (now : Nat) (s1 : Store) :
    Store × Except HandlerErr RegResp :=
  match payment_proof with
  | none =>
    if isValidEmail email then
      let created := createPaymentDoc s1 now npm name email none none none
      (created.1, Except.ok { message := "Registrasi tersimpan",
                              payment_id := objectIdHex created.2 })
    else
      (s1, Except.error (HandlerErr.uncaught "pydantic ValidationError: email"))
  | some f =>
    let mime := normalizeMime f.content_type
    if mime ∈ allowedMimes then
      if isValidEmail email then
        let b64 := String.mk (base64Encode f.bytes)
        let created := createPaymentDoc s1 now npm name email f.filename (some mime) (some b64)
        (created.1, Except.ok { message := "Registrasi tersimpan",
                                payment_id := objectIdHex created.2 })
      else
        (s1, Except.error (HandlerErr.uncaught "pydantic ValidationError: email"))
    else
      (s1, Except.error (HandlerErr.http 400 "Format file tidak didukung. Gunakan JPG/PNG/PDF"))

/-- `POST /registrations` (`create_registration`, main.py lines 29-70).
When no student with the npm exists, `Student(...)` at line 42 validates
`EmailStr` before `create_document` runs, so an invalid email raises there
with the store untouched; with an existing student, `update_one` at line 44
patches name/email without validation. Both branches then continue with the
file check and payment creation of `registrationPaymentStep`. -/
def createRegistration (npm name email : String) (payment_proof : Option FilePart)
    (now : Nat) (s : Store) : Store × Except HandlerErr RegResp :=
  if npm = "" ∨ name = "" ∨ email = "" then
    (s, Except.error (HandlerErr.http 400 "Data tidak lengkap"))
  else
    -- upsert student minimal info (lines 40-44)
    match s.students.find? (fun d => d.npm == npm) with
    | none =>
      if isValidEmail email then
        registrationPaymentStep npm name email payment_proof now
          (createStudentDoc s now npm name email).1
      else
        (s, Except.error (HandlerErr.uncaught "pydantic ValidationError: email"))
    | some _ =>
      registrationPaymentStep npm name email payment_proof now
        { s with students :=
            (updateFirst (fun d => d.npm == npm)
              (fun d => { d with name := name, email := email, updated_at := some now })
              s.students) }

/-- The per-payment shaping performed by the loop of `list_pending`
(main.py lines 78-89): the data link is synthesized only when both the
encoded content and the MIME type are Python-truthy. -/
def mkPendingEntry (p : PaymentDoc) : PendingEntry :=
  { _id := objectIdHex p.pid,
    npm := p.npm,
    name := p.name,
    email := p.email,
    file_url :=
      if pyTruthy p.file_data_b64 && pyTruthy p.file_mime then
        some ("data:" ++ p.file_mime.getD "" ++ ";base64," ++ p.file_data_b64.getD "")
      else none }

/-- `GET /admin/pending` (`list_pending`, main.py lines 73-90). -/
def listPending (s : Store) : PendingResp :=
  { payments := (s.payments.filter (fun p => p.status == "pending")).map mkPendingEntry }

/-- `POST /admin/verify/{payment_id}` (`verify_payment`, main.py lines 96-106).
`bson.ObjectId` parsing happens inside the `update_one` call; a malformed id
raises `bson.errors.InvalidId`, which no code catches. -/
def verifyPayment (payment_id : String) (status : String) (now : Nat) (s : Store) :
    Store × Except HandlerErr VerifyResp :=
  if status = "approved" ∨ status = "rejected" then
    match parseObjectId payment_id with
    | none => (s, Except.error (HandlerErr.uncaught "bson.errors.InvalidId"))
    | some oid =>
      if s.payments.any (fun p => p.pid == oid) then
        ({ s with payments :=
            (updateFirst (fun p => p.pid == oid)
              (fun p => { p with status := status, verified_at := some now }) s.payments) },
         Except.ok { ok := true })
      else
        (s, Except.error (HandlerErr.http 404 "Payment tidak ditemukan"))
  else
    (s, Except.error (HandlerErr.http 400 "Status tidak valid"))

/-- `schemas.Test` validation: `attempt` carries `ge=1`, `status` is the
literal `pass`/`fail` (schemas.py lines 24-29). -/
def testSchemaValid (attempt : Int) (status : String) : Bool :=
  decide (1 ≤ attempt) && (status == "pass" || status == "fail")

/-- Certificate text built by `submit_result` (main.py line 125). -/
def submitResultCertContent (npm : String) (attempt : Int) (score : String)
    (today : Date) : String :=
  "SERTIFIKAT EPIC\nNPM: " ++ npm ++ "\nAttempt: " ++ toString attempt ++
  "\nSkor: " ++ score ++ "\nTanggal: " ++ formatDMY today ++ "\n"

/-- Certificate data URL built by `submit_result` (main.py lines 125-127). -/
def submitCertLink (npm : String) (attempt : Int) (score : String) (today : Date) : String :=
  "data:application/pdf;base64," ++
  String.mk (base64Encode (strBytes (submitResultCertContent npm attempt score today)))

/-- `POST /admin/result` (`submit_result`, main.py lines 115-130).
Constructing `Test(...)` happens before any write, so a validation failure
(attempt below 1) leaves the store untouched and escapes as an uncaught
pydantic error. -/
def submitResult (body : ResultBody) (now : Nat) (today : Date) (s : Store) :
    Store × Except HandlerErr ResultResp :=
  if body.status = "pass" ∨ body.status = "fail" then
    if testSchemaValid body.attempt body.status then
      let afterTest := createTestDoc s now body.npm (some body.attempt) (some body.score)
        body.status (some now)
      if body.status = "pass" then
        let certUrl := submitCertLink body.npm body.attempt body.score today
        let afterCert := createCertDoc afterTest.1 now body.npm (some body.attempt) (some now)
        (afterCert.1, Except.ok { ok := true, certificate_url := some certUrl })
      else
        (afterTest.1, Except.ok { ok := true, certificate_url := none })
    else
      (s, Except.error (HandlerErr.uncaught "pydantic ValidationError: attempt ge=1"))
  else
    (s, Except.error (HandlerErr.http 400 "Status hasil tidak valid"))

/-- Certificate text rebuilt by `student_history` (main.py line 147); the
`t.get(...)` values may be missing and then render as `None`. -/
def historyCertContent (npm : String) (attempt : Option Int) (score : Option String)
    (today : Date) : String :=
  "SERTIFIKAT EPIC\nNPM: " ++ npm ++ "\nAttempt: " ++ pyOptInt attempt ++
  "\nSkor: " ++ pyOptStr score ++ "\nTanggal: " ++ formatDMY today ++ "\n"

/-- Certificate data URL rebuilt by `student_history` (main.py lines 147-149). -/
def historyCertLink (npm : String) (attempt : Option Int) (score : Option String)
    (today : Date) : String :=
  "data:application/pdf;base64," ++
  String.mk (base64Encode (strBytes (historyCertContent npm attempt score today)))

/-- The per-test shaping performed by the loop of `student_history`
(main.py lines 140-157). -/
def historyEntry (npm : String) (today : Date) (certs : List CertDoc) (t : TestDoc) : HistEntry :=
  let cert := certs.find? (fun c => c.npm == npm && c.attempt == t.attempt)
  { id := objectIdHex t.tid,
    attempt := t.attempt,
    score := t.score,
    status := t.status,
    taken_at := t.taken_at,
    certificate_url :=
      if t.status == "pass" && cert.isSome then
        some (historyCertLink npm t.attempt t.score today)
      else none }

/-- `GET /students/{npm}/history` (`student_history`, main.py lines 133-158).
Python's `sorted` is a stable sort on the key `t.get("attempt", 0)`; a stable
sort's output is uniquely determined by the key order and original positions,
so the stable `List.insertionSort` computes exactly it. -/
def studentHistory (npm : String) (today : Date) (s : Store) : HistoryResp :=
  let tests := s.tests.filter (fun t => t.npm == npm)
  let sorted := tests.insertionSort (fun a b => a.attempt.getD 0 ≤ b.attempt.getD 0)
  { tests := sorted.map (historyEntry npm today s.certificates) }

/-! ## Diagnostics endpoint (`GET /test`) -/

/-- Decidable equality for `Except`, used to evaluate handler outcomes. -/
instance [DecidableEq ε] [DecidableEq α] : DecidableEq (Except ε α) := fun a b =>
  match a, b with
  | Except.ok x, Except.ok y =>
    if h : x = y then isTrue (congrArg Except.ok h)
    else isFalse (fun hc => h (Except.ok.inj hc))
  | Except.error x, Except.error y =>
    if h : x = y then isTrue (congrArg Except.error h)
    else isFalse (fun hc => h (Except.error.inj hc))
  | Except.ok _, Except.error _ => isFalse (fun hc => Except.noConfusion hc)
  | Except.error _, Except.ok _ => isFalse (fun hc => Except.noConfusion hc)

/-- The state of the module-global `db` handle as `test_database` observes it. -/
structure DbEnv where
  available : Bool
  name : Option String := none
  listCollections : Except String (List String) := Except.ok []
deriving DecidableEq, Repr

/-- The two environment variables read by `test_database`. -/
structure EnvVars where
  databaseUrl : Option String := none
  databaseName : Option String := none
deriving DecidableEq, Repr

/-- Response of `GET /test`. -/
structure TestResp where
  backend : String
  database : String
  database_url : Option String
  database_name : Option String
  connection_status : String
  collections : List String
deriving DecidableEq, Repr

/-- `GET /test` (`test_database`, main.py lines 160-187). The only raising
operation inside the `try` is `db.list_collection_names()`; the handler
catches every exception and truncates its message, and finally overwrites the
two URL/name fields with pure presence flags. -/
def testDatabase (env : DbEnv) (ev : EnvVars) : TestResp :=
  let r0 : TestResp :=
    { backend := "✅ Running", database := "❌ Not Available",
      database_url := none, database_name := none,
      connection_status := "Not Connected", collections := [] }
  let r1 :=
    if env.available then
      let r := { r0 with
        database := "✅ Available",
        database_url := some "✅ Configured",
        database_name := some (match env.name with | some n => n | none => "✅ Connected"),
        connection_status := "Connected" }
      match env.listCollections with
      | Except.ok cols =>
        { r with collections := cols.take 10, database := "✅ Connected & Working" }
      | Except.error e =>
        { r with database := "❌ Error: " ++ e.take 50 }
    else
      { r0 with database := "⚠️  Available but not initialized" }
  { r1 with
    database_url := some (if pyTruthy ev.databaseUrl then "✅ Set" else "❌ Not Set"),
    database_name := some (if pyTruthy ev.databaseName then "✅ Set" else "❌ Not Set") }

/-! ## Claim statements and example data -/

/-- The §4.5 certificate behaviour of `submit_result` claimed for a given
request body: a `pass` submission appends exactly one Certificate record and
returns the data link whose base64 payload decodes to the certificate text
built from the submitted npm, attempt and score; a `fail` submission appends
no Certificate record and returns a null link. -/
def SubmitResultCertClaim (body : ResultBody) (now : Nat) (today : Date) (s : Store) : Prop :=
  (body.status = "pass" →
    (submitResult body now today s).1.certificates
      = s.certificates ++ [{ cid := s.nextId + 1, created_at := now, npm := body.npm,
                             attempt := some body.attempt, issued_at := some now }]
    ∧ (submitResult body now today s).2
        = Except.ok { ok := true, certificate_url := some (submitCertLink body.npm body.attempt body.score today) }
    ∧ base64Decode (base64Encode (strBytes
          (submitResultCertContent body.npm body.attempt body.score today)))
        = some (strBytes (submitResultCertContent body.npm body.attempt body.score today)))
  ∧ (body.status = "fail" →
    (submitResult body now today s).1.certificates = s.certificates
    ∧ (submitResult body now today s).2 = Except.ok { ok := true, certificate_url := none })

/-- The §4.6 claims about one entry of `GET /students/{npm}/history`:
the response is sorted by non-decreasing attempt number (missing attempts
sorting as 0), `fail` entries carry a null certificate link, and `pass`
entries with a matching Certificate record carry a non-null link. -/
def HistoryClaim (s : Store) (npm : String) (today : Date) (e : HistEntry) : Prop :=
  (studentHistory npm today s).tests.Pairwise
      (fun a b => a.attempt.getD 0 ≤ b.attempt.getD 0)
  ∧ (e.status = "fail" → e.certificate_url = none)
  ∧ (e.status = "pass" →
      (s.certificates.any fun c => c.npm == npm && c.attempt == e.attempt) = true →
      e.certificate_url.isSome = true)

/-- The §4.7 claims about `GET /test`: at most ten collection names, the two
environment-driven settings reported only as present or absent, and any
store-access exception summarized truncated into the `database` field. -/
def DiagClaim (env : DbEnv) (ev : EnvVars) : Prop :=
  (testDatabase env ev).collections.length ≤ 10
  ∧ ((testDatabase env ev).database_url = some "✅ Set"
      ∨ (testDatabase env ev).database_url = some "❌ Not Set")
  ∧ ((testDatabase env ev).database_name = some "✅ Set"
      ∨ (testDatabase env ev).database_name = some "❌ Not Set")
  ∧ (∀ msg, env.available = true → env.listCollections = Except.error msg →
      (testDatabase env ev).database = "❌ Error: " ++ msg.take 50
      ∧ (testDatabase env ev).collections = [])

/-- Example pending payment. -/
def exPayPending : PaymentDoc :=
  { pid := 0, created_at := 0, npm := "2106000", name := "Budi",
    email := "budi@x.com", status := "pending" }

/-- `exPayPending` after approval at instant 5. -/
def exPayApproved : PaymentDoc :=
  { exPayPending with status := "approved", verified_at := some 5 }

/-- Store holding only `exPayPending`. -/
def exStoreV0 : Store := { payments := [exPayPending], nextId := 1 }

/-- Store holding only `exPayApproved`. -/
def exStoreV1 : Store := { payments := [exPayApproved], nextId := 1 }

/-- Example result submission that passes. -/
def exResultPass : ResultBody :=
  { npm := "2106000", attempt := 1, score := "85.0", status := "pass" }

/-- Example result submission with attempt 0 (invalid under `schemas.Test`). -/
def exResultZero : ResultBody :=
  { npm := "2106000", attempt := 0, score := "85.0", status := "pass" }

/-- Example date. -/
def exDate : Date := { day := 12, month := 10, year := 2026 }

/-- Example passing test document (attempt 2). -/
def exTestPass : TestDoc :=
  { tid := 3, created_at := 0, npm := "2106000", attempt := some 2,
    score := some "85.0", status := "pass", taken_at := some 0 }

/-- Example failing test document (attempt 1). -/
def exTestFail : TestDoc :=
  { tid := 2, created_at := 0, npm := "2106000", attempt := some 1,
    score := some "40.0", status := "fail", taken_at := some 0 }

/-- Example certificate document matching `exTestPass`. -/
def exCert : CertDoc :=
  { cid := 4, created_at := 0, npm := "2106000", attempt := some 2, issued_at := some 0 }

/-- Store with the two example tests (out of order) and the certificate. -/
def exStoreH : Store :=
  { tests := [exTestPass, exTestFail], certificates := [exCert], nextId := 5 }

/-- Example zero-byte uploaded file with an allowed MIME type. -/
def exEmptyPng : FilePart :=
  { filename := some "bukti.png", content_type := some "image/png", bytes := [] }

/-- Store produced by registering with the zero-byte file. -/
def exStoreC9 : Store :=
  (createRegistration "2106000" "Budi" "budi@x.com" (some exEmptyPng) 0 emptyStore).1

/-- The payment record persisted by that registration. -/
def exEmptyPayment : PaymentDoc :=
  { pid := 1, created_at := 0, npm := "2106000", name := "Budi", email := "budi@x.com",
    file_name := some "bukti.png", file_mime := some "image/png", file_data_b64 := some "" }

/-- Example `db` handle state whose collection listing raises. -/
def exEnvErr : DbEnv :=
  { available := true, name := some "epicdb",
    listCollections := Except.error
      "ServerSelectionTimeoutError: connection refused after 30000 ms, timeout exceeded" }

/-- Example environment variables: URL set, name unset. -/
def exEv : EnvVars := { databaseUrl := some "mongodb://localhost:27017", databaseName := none }

/-- Example student already registered. -/
def exStudent : StudentDoc :=
  { sid := 0, created_at := 0, npm := "2106000", name := "Budi", email := "budi@x.com" }

/-- Store holding only `exStudent`. -/
def exStoreS : Store := { students := [exStudent], nextId := 1 }

/-! ## Lemmas about the encodings -/

/-- Decoding inverts encoding on each base64 alphabet position. -/
theorem b64Index_b64Char : ∀ n, n < 64 → b64Index (b64Char n) = some n := by decide

/-- Alphabet characters are never the padding character. -/
theorem b64Char_ne_pad : ∀ n, n < 64 → b64Char n ≠ '=' := by decide

/-- Standard base64 decoding is a left inverse of `base64.b64encode` on byte
lists. -/
theorem base64_roundtrip : ∀ (bs : List Nat), (∀ b ∈ bs, b < 256) →
    base64Decode (base64Encode bs) = some bs
  | [], _ => rfl
  | [a], h => by
    have ha : a < 256 := h a (by simp)
    have h1 := b64Index_b64Char (a / 4) (by omega)
    have h2 := b64Index_b64Char (a % 4 * 16) (by omega)
    simp only [base64Encode, base64Decode, h1, h2]
    simp
    omega
  | [a, b], h => by
    have ha : a < 256 := h a (by simp)
    have hb : b < 256 := h b (by simp)
    have h1 := b64Index_b64Char (a / 4) (by omega)
    have h2 := b64Index_b64Char (a % 4 * 16 + b / 16) (by omega)
    have h3 := b64Index_b64Char (b % 16 * 4) (by omega)
    have hne := b64Char_ne_pad (b % 16 * 4) (by omega)
    simp only [base64Encode, base64Decode, h1, h2, h3, if_neg hne]
    simp
    constructor <;> omega
  | a :: b :: c :: rest, h => by
    have ha : a < 256 := h a (by simp)
    have hb : b < 256 := h b (by simp)
    have hc : c < 256 := h c (by simp)
    have ih := base64_roundtrip rest (fun x hx => h x (by simp [hx]))
    have h1 := b64Index_b64Char (a / 4) (by omega)
    have h2 := b64Index_b64Char (a % 4 * 16 + b / 16) (by omega)
    have h3 := b64Index_b64Char (b % 16 * 4 + c / 64) (by omega)
    have h4 := b64Index_b64Char (c % 64) (by omega)
    have hne3 := b64Char_ne_pad (b % 16 * 4 + c / 64) (by omega)
    have hne4 := b64Char_ne_pad (c % 64) (by omega)
    simp only [base64Encode, base64Decode, h1, h2, h3, h4, if_neg hne3, if_neg hne4, ih]
    simp
    refine ⟨by omega, by omega, by omega⟩

/-- Every Unicode scalar value is below `0x110000`. -/
theorem char_toNat_lt (c : Char) : c.toNat < 1114112 := by
  have h := c.valid
  rcases h with h | ⟨_, h2⟩
  · exact lt_trans h (by norm_num)
  · exact h2

/-- UTF-8 encoding produces bytes. -/
theorem utf8EncodeChar_lt (c : Char) : ∀ b ∈ utf8EncodeChar c, b < 256 := by
  have h := char_toNat_lt c
  intro b hb
  unfold utf8EncodeChar at hb
  by_cases h1 : c.toNat < 128 <;> simp only [h1, if_pos, if_neg, if_true, if_false] at hb
  · simp at hb; omega
  · by_cases h2 : c.toNat < 2048 <;> simp only [h2, if_true, if_false] at hb
    · simp at hb; rcases hb with hb | hb <;> omega
    · by_cases h3 : c.toNat < 65536 <;> simp only [h3, if_true, if_false] at hb
      · simp at hb; rcases hb with hb | hb | hb <;> omega
      · simp at hb; rcases hb with hb | hb | hb | hb <;> omega

/-- `str.encode("utf-8")` produces bytes. -/
theorem strBytes_lt (s : String) : ∀ b ∈ strBytes s, b < 256 := by
  intro b hb
  unfold strBytes at hb
  rw [List.mem_flatMap] at hb
  obtain ⟨c, _, hc⟩ := hb
  exact utf8EncodeChar_lt c b hc

/-! ## Lemmas about `updateFirst` -/

/-- If the update function does not change the predicate, neither does
`updateFirst`. -/
theorem updateFirst_any (pred : α → Bool) (f : α → α)
    (hpf : ∀ a, pred (f a) = pred a) (l : List α) :
    (updateFirst pred f l).any pred = l.any pred := by
  induction l with
  | nil => rfl
  | cons x xs ih =>
    by_cases hx : pred x <;> simp [updateFirst, hx, hpf, ih]

/-- Re-applying an idempotent, predicate-preserving update is the identity. -/
theorem updateFirst_idem (pred : α → Bool) (f : α → α)
    (hpf : ∀ a, pred (f a) = pred a) (hff : ∀ a, f (f a) = f a) (l : List α) :
    updateFirst pred f (updateFirst pred f l) = updateFirst pred f l := by
  induction l with
  | nil => rfl
  | cons x xs ih =>
    by_cases hx : pred x
    · simp only [updateFirst, hx, if_true, if_pos]
      simp [updateFirst, hpf, hx, hff]
    · simp [updateFirst, hx, ih]

/-- `updateFirst` preserves counts of any property the update function
preserves. -/
theorem updateFirst_countP (pred q : α → Bool) (f : α → α)
    (hq : ∀ a, q (f a) = q a) (l : List α) :
    (updateFirst pred f l).countP q = l.countP q := by
  induction l with
  | nil => rfl
  | cons x xs ih =>
    by_cases hx : pred x <;> simp [updateFirst, hx, List.countP_cons, hq, ih]

/-! ## Claim theorems -/

/-- C2: the certificate-link code path of `student_history` (main.py 147-149)
computes the same function of (npm, attempt, score, current date) as the code
path of `submit_result` (main.py 125-127), on tests whose stored attempt and
score are present (as every test written by `submit_result` is). -/
theorem cert_link_code_paths_agree (npm : String) (attempt : Int) (score : String)
    (today : Date) :
    historyCertLink npm (some attempt) (some score) today =
      submitCertLink npm attempt score today := rfl

/-- C3: payment verification is idempotent — after a successful
`POST /admin/verify/{payment_id}`, repeating the call with the same status
(and clock reading) succeeds with the same response and leaves the store
unchanged; the update carries no transition guard on the current status. -/
theorem verify_payment_idempotent (payment_id status : String) (now : Nat)
    (s s₁ : Store) (r₁ : VerifyResp)
    (hst : status = "approved" ∨ status = "rejected")
    (h : verifyPayment payment_id status now s = (s₁, Except.ok r₁)) :
    verifyPayment payment_id status now s₁ = (s₁, Except.ok r₁) := by
  unfold verifyPayment at h ⊢
  rw [if_pos hst] at h ⊢
  cases hpid : parseObjectId payment_id with
  | none => simp only [hpid] at h; simp at h
  | some oid =>
    simp only [hpid] at h ⊢
    by_cases hany : (s.payments.any fun p => p.pid == oid) = true
    · rw [if_pos hany, Prod.mk.injEq] at h
      obtain ⟨hs, hr⟩ := h
      have hr2 : r₁ = { ok := true } := (Except.ok.inj hr).symm
      subst hs
      dsimp only
      rw [updateFirst_any (fun p : PaymentDoc => p.pid == oid)
            (fun p : PaymentDoc => { p with status := status, verified_at := some now })
            (fun p => rfl), if_pos hany]
      rw [updateFirst_idem (fun p : PaymentDoc => p.pid == oid)
            (fun p : PaymentDoc => { p with status := status, verified_at := some now })
            (fun p => rfl) (fun p => rfl)]
      rw [hr2]
    · rw [if_neg hany] at h; simp at h

/-- C3 witness: re-approving an already approved payment at the same clock
reading returns the same response and the same store. -/
theorem verify_payment_idempotent_witness :
    ("approved" = "approved" ∨ "approved" = "rejected")
    ∧ verifyPayment "000000000000000000000000" "approved" 5 exStoreV0
        = (exStoreV1, Except.ok { ok := true })
    ∧ verifyPayment "000000000000000000000000" "approved" 5 exStoreV1
        = (exStoreV1, Except.ok { ok := true }) :=
  ⟨Or.inl rfl, by decide,
   verify_payment_idempotent "000000000000000000000000" "approved" 5 exStoreV0 exStoreV1
     { ok := true } (Or.inl rfl) (by decide)⟩

/-- C4 (amended): verifying a payment under a well-formed ObjectId string
that matches no stored payment fails with HTTP 404 and changes nothing. -/
theorem verify_payment_unmatched_not_found (payment_id status : String) (now : Nat)
    (s : Store) (oid : Nat)
    (hst : status = "approved" ∨ status = "rejected")
    (hid : parseObjectId payment_id = some oid)
    (hno : ∀ p ∈ s.payments, p.pid ≠ oid) :
    verifyPayment payment_id status now s
      = (s, Except.error (HandlerErr.http 404 "Payment tidak ditemukan")) := by
  unfold verifyPayment
  have hany : s.payments.any (fun p => p.pid == oid) = false := by
    rw [List.any_eq_false]
    intro p hp
    simpa using hno p hp
  rw [if_pos hst]
  simp only [hid]
  rw [hany]
  simp

/-- C4 counterexample: a malformed payment identifier matches no Payment
record, yet the endpoint raises the uncaught `bson.errors.InvalidId`
(surfacing as HTTP 500), not the 404 `NotFound` the claim requires. -/
theorem verify_payment_malformed_id_counterexample :
    emptyStore.payments = []
    ∧ (verifyPayment "nope" "approved" 0 emptyStore).2
        = Except.error (HandlerErr.uncaught "bson.errors.InvalidId")
    ∧ isHttpCode 404 (verifyPayment "nope" "approved" 0 emptyStore).2 = false :=
  ⟨rfl, by decide, by decide⟩

/-- C4 witness: a well-formed but unmatched identifier does get the 404. -/
theorem verify_payment_unmatched_not_found_witness :
    parseObjectId "000000000000000000000001" = some 1
    ∧ verifyPayment "000000000000000000000001" "approved" 0 emptyStore
        = (emptyStore, Except.error (HandlerErr.http 404 "Payment tidak ditemukan")) :=
  ⟨by decide,
   verify_payment_unmatched_not_found _ _ _ _ 1 (Or.inl rfl) (by decide) (by decide)⟩

/-- C5 (amended): a registration whose attached file declares a MIME type
outside the allow-list fails with HTTP 400 and creates no Payment record,
provided the email passes the `EmailStr` syntax check or a Student record
for that npm already exists (otherwise the `Student(...)` construction at
main.py line 42 raises before the MIME check is reached). -/
theorem registration_bad_mime_rejected (npm name email : String) (f : FilePart)
    (m : String) (now : Nat) (s : Store)
    (hn : npm ≠ "") (hm : name ≠ "") (he : email ≠ "")
    (hdecl : f.content_type = some m) (hnotal : m ∉ allowedMimes)
    (hok : isValidEmail email = true
           ∨ (s.students.any fun d => d.npm == npm) = true) :
    (createRegistration npm name email (some f) now s).2
      = Except.error (HandlerErr.http 400 "Format file tidak didukung. Gunakan JPG/PNG/PDF")
    ∧ (createRegistration npm name email (some f) now s).1.payments = s.payments := by
  have hmime : normalizeMime f.content_type ∉ allowedMimes := by
    rw [hdecl]
    by_cases hz : m = ""
    · simp only [normalizeMime, if_pos hz]; decide
    · simp only [normalizeMime, if_neg hz]; exact hnotal
  unfold createRegistration
  rw [if_neg (by simp [hn, hm, he])]
  cases hfind : s.students.find? (fun d => d.npm == npm) with
  | none =>
    have hval : isValidEmail email = true := by
      rcases hok with h | h
      · exact h
      · rw [List.any_eq_true] at h
        obtain ⟨d, hd, hdp⟩ := h
        rw [List.find?_eq_none] at hfind
        exact absurd hdp (by simpa using hfind d hd)
    simp [hval, hmime, registrationPaymentStep, createStudentDoc]
  | some d =>
    simp [hmime, registrationPaymentStep]

/-- C5 counterexample: for a registration with non-empty npm, name and email,
a disallowed file type, an email `EmailStr` rejects and no existing Student,
the `Student(...)` construction raises an uncaught pydantic ValidationError
(HTTP 500) before the MIME check, not the 400 the claim requires — though,
as claimed, no Payment record is created. -/
theorem registration_bad_mime_invalid_email_counterexample :
    ("2106000" ≠ "") ∧ ("Budi" ≠ "") ∧ ("not-an-email" ≠ "")
    ∧ isValidEmail "not-an-email" = false
    ∧ (FilePart.mk (some "x.gif") (some "image/gif") [1, 2, 3]).content_type = some "image/gif"
    ∧ "image/gif" ∉ allowedMimes
    ∧ (createRegistration "2106000" "Budi" "not-an-email"
        (some (FilePart.mk (some "x.gif") (some "image/gif") [1, 2, 3])) 0 emptyStore).2
        = Except.error (HandlerErr.uncaught "pydantic ValidationError: email")
    ∧ isHttpCode 400 (createRegistration "2106000" "Budi" "not-an-email"
        (some (FilePart.mk (some "x.gif") (some "image/gif") [1, 2, 3])) 0 emptyStore).2
        = false :=
  ⟨by decide, by decide, by decide, by decide, rfl, by decide, by decide, by decide⟩

/-- C5 witness: with a valid email, a GIF upload is rejected with 400 and no
Payment appears. -/
theorem registration_bad_mime_rejected_witness :
    ("2106000" ≠ "") ∧ ("Budi" ≠ "") ∧ ("budi@x.com" ≠ "")
    ∧ (FilePart.mk (some "x.gif") (some "image/gif") [1, 2, 3]).content_type = some "image/gif"
    ∧ "image/gif" ∉ allowedMimes
    ∧ isValidEmail "budi@x.com" = true
    ∧ (createRegistration "2106000" "Budi" "budi@x.com"
        (some (FilePart.mk (some "x.gif") (some "image/gif") [1, 2, 3])) 0 emptyStore).2
        = Except.error (HandlerErr.http 400 "Format file tidak didukung. Gunakan JPG/PNG/PDF")
    ∧ (createRegistration "2106000" "Budi" "budi@x.com"
        (some (FilePart.mk (some "x.gif") (some "image/gif") [1, 2, 3])) 0 emptyStore).1.payments
        = emptyStore.payments :=
  ⟨by decide, by decide, by decide, rfl, by decide, by decide,
   (registration_bad_mime_rejected _ _ _ _ _ _ _ (by decide) (by decide) (by decide)
      rfl (by decide) (Or.inl (by decide))).1,
   (registration_bad_mime_rejected _ _ _ _ _ _ _ (by decide) (by decide) (by decide)
      rfl (by decide) (Or.inl (by decide))).2⟩

/-- C1 (amended): for every `POST /admin/result` submission with a valid
status and attempt at least 1, a `pass` creates exactly one Certificate
record and returns the data link whose base64 payload decodes to the UTF-8
certificate text containing the submitted npm, attempt and score; a `fail`
creates no Certificate record and returns a null link. -/
theorem submit_result_certificate_issuance (body : ResultBody) (now : Nat)
    (today : Date) (s : Store) (hatt : 1 ≤ body.attempt) :
    SubmitResultCertClaim body now today s := by
  constructor
  · intro h
    refine ⟨?_, ?_, base64_roundtrip _ (strBytes_lt _)⟩ <;>
      simp [submitResult, testSchemaValid, h, hatt, createTestDoc, createCertDoc]
  · intro h
    constructor <;>
      simp [submitResult, testSchemaValid, h, hatt, createTestDoc, createCertDoc]

/-- C1 counterexample: a submission with valid status `pass` but attempt 0
creates zero Certificate records and returns no certificate link (the
pydantic validation of `Test` fails), contradicting the claim as stated for
all submissions with a valid status. -/
theorem submit_result_zero_attempt_counterexample :
    exResultZero.status = "pass"
    ∧ (submitResult exResultZero 0 exDate emptyStore).1.certificates = []
    ∧ (submitResult exResultZero 0 exDate emptyStore).2
        = Except.error (HandlerErr.uncaught "pydantic ValidationError: attempt ge=1") :=
  ⟨rfl, by decide, by decide⟩

/-- C1 witness: the example pass submission at attempt 1. -/
theorem submit_result_certificate_issuance_witness :
    1 ≤ exResultPass.attempt ∧ SubmitResultCertClaim exResultPass 7 exDate emptyStore :=
  ⟨by decide, submit_result_certificate_issuance exResultPass 7 exDate emptyStore (by decide)⟩

/-- C6: every history response is sorted by non-decreasing attempt number
(missing attempts sorting as 0); its `fail` entries carry a null certificate
link, and its `pass` entries with a matching Certificate record carry a
non-null one. -/
theorem student_history_sorted_and_links (s : Store) (npm : String) (today : Date)
    (e : HistEntry) (he : e ∈ (studentHistory npm today s).tests) :
    HistoryClaim s npm today e := by
  haveI : IsTotal TestDoc (fun a b : TestDoc => a.attempt.getD 0 ≤ b.attempt.getD 0) :=
    ⟨fun a b => le_total _ _⟩
  haveI : IsTrans TestDoc (fun a b : TestDoc => a.attempt.getD 0 ≤ b.attempt.getD 0) :=
    ⟨fun _ _ _ h1 h2 => le_trans h1 h2⟩
  have hsort := List.sorted_insertionSort
    (fun a b : TestDoc => a.attempt.getD 0 ≤ b.attempt.getD 0)
    (s.tests.filter (fun t => t.npm == npm))
  have he' : ∃ t, t ∈ (s.tests.filter (fun t => t.npm == npm)).insertionSort
      (fun a b => a.attempt.getD 0 ≤ b.attempt.getD 0)
      ∧ historyEntry npm today s.certificates t = e := by
    simpa [studentHistory] using he
  obtain ⟨t, _, rfl⟩ := he'
  refine ⟨?_, ?_, ?_⟩
  · have hmap : (studentHistory npm today s).tests
        = ((s.tests.filter (fun t => t.npm == npm)).insertionSort
            (fun a b => a.attempt.getD 0 ≤ b.attempt.getD 0)).map
            (historyEntry npm today s.certificates) := rfl
    rw [hmap, List.pairwise_map]
    exact hsort.imp (fun h => by simpa [historyEntry] using h)
  · intro hf
    have hst : t.status = "fail" := hf
    simp [historyEntry, hst]
  · intro hp hany
    have hst : t.status = "pass" := hp
    have hfind : (s.certificates.find? fun c =>
        c.npm == npm && c.attempt == t.attempt).isSome = true := by
      rw [List.find?_isSome]
      rw [List.any_eq_true] at hany
      obtain ⟨c, hc, hcc⟩ := hany
      exact ⟨c, hc, hcc⟩
    simp [historyEntry, hst, hfind]

/-- C6 witness: a store holding a pass test (attempt 2, with certificate) and
a fail test (attempt 1), listed out of order. -/
theorem student_history_sorted_and_links_witness :
    historyEntry "2106000" exDate exStoreH.certificates exTestPass
        ∈ (studentHistory "2106000" exDate exStoreH).tests
    ∧ HistoryClaim exStoreH "2106000" exDate
        (historyEntry "2106000" exDate exStoreH.certificates exTestPass) :=
  ⟨by decide,
   student_history_sorted_and_links exStoreH "2106000" exDate
     (historyEntry "2106000" exDate exStoreH.certificates exTestPass) (by decide)⟩

/-- C7: a valid registration against a store already holding exactly one
Student record for that npm updates that record in place (overwriting name
and email, stamping an update time), leaving the student count at 1. -/
theorem registration_upsert_unique_student (npm name email : String)
    (file : Option FilePart) (now : Nat) (s : Store)
    (hn : npm ≠ "") (hm : name ≠ "") (he : email ≠ "")
    (hfile : ∀ f, file = some f → normalizeMime f.content_type ∈ allowedMimes)
    (hcount : s.students.countP (fun d => d.npm == npm) = 1) :
    (createRegistration npm name email file now s).1.students.countP
        (fun d => d.npm == npm) = 1
    ∧ (createRegistration npm name email file now s).1.students
        = updateFirst (fun d => d.npm == npm)
            (fun d => { d with name := name, email := email, updated_at := some now })
            s.students := by
  have hex : ∃ d ∈ s.students, (fun d : StudentDoc => d.npm == npm) d := by
    rw [← List.countP_pos_iff]
    omega
  have hfound : (s.students.find? (fun d => d.npm == npm)).isSome = true := by
    rw [List.find?_isSome]
    exact hex
  obtain ⟨d, hd⟩ := Option.isSome_iff_exists.mp hfound
  have hupd : (createRegistration npm name email file now s).1.students
      = updateFirst (fun d => d.npm == npm)
          (fun d => { d with name := name, email := email, updated_at := some now })
          s.students := by
    unfold createRegistration
    rw [if_neg (by simp [hn, hm, he])]
    simp only [hd]
    cases file with
    | none =>
      by_cases hv : isValidEmail email = true <;>
        simp [registrationPaymentStep, hv, createPaymentDoc]
    | some f =>
      have hok : normalizeMime f.content_type ∈ allowedMimes := hfile f rfl
      by_cases hv : isValidEmail email = true <;>
        simp [registrationPaymentStep, hok, hv, createPaymentDoc]
  refine ⟨?_, hupd⟩
  rw [hupd, updateFirst_countP (fun d : StudentDoc => d.npm == npm)
        (fun d : StudentDoc => d.npm == npm)
        (fun d : StudentDoc => { d with name := name, email := email, updated_at := some now })
        (fun a => rfl), hcount]

/-- C7 witness: re-registering the already-present example student, without a
file, keeps exactly one Student record for the npm. -/
theorem registration_upsert_unique_student_witness :
    ("2106000" ≠ "") ∧ ("Budi R" ≠ "") ∧ ("budi2@x.com" ≠ "")
    ∧ exStoreS.students.countP (fun d => d.npm == "2106000") = 1
    ∧ (createRegistration "2106000" "Budi R" "budi2@x.com" none 9 exStoreS).1.students.countP
        (fun d => d.npm == "2106000") = 1
    ∧ (createRegistration "2106000" "Budi R" "budi2@x.com" none 9 exStoreS).1.students
        = updateFirst (fun d => d.npm == "2106000")
            (fun d => { d with name := "Budi R", email := "budi2@x.com",
                               updated_at := some 9 })
            exStoreS.students :=
  ⟨by decide, by decide, by decide, by decide,
   (registration_upsert_unique_student "2106000" "Budi R" "budi2@x.com" none 9 exStoreS
      (by decide) (by decide) (by decide) (fun f hf => by cases hf) (by decide)).1,
   (registration_upsert_unique_student "2106000" "Budi R" "budi2@x.com" none 9 exStoreS
      (by decide) (by decide) (by decide) (fun f hf => by cases hf) (by decide)).2⟩

/-- C8: `GET /test` always answers: it lists at most 10 collection names,
reports the two environment-driven settings only as present or absent (never
by value), and summarizes any store-access exception truncated to 50
characters instead of propagating it. -/
theorem test_database_diagnostics (env : DbEnv) (ev : EnvVars) : DiagClaim env ev := by
  unfold DiagClaim testDatabase
  refine ⟨?_, ?_, ?_, ?_⟩
  · cases hav : env.available <;> simp [hav]
    cases hlc : env.listCollections <;> simp [hlc]
  · by_cases hurl : pyTruthy ev.databaseUrl = true <;> simp [hurl]
  · by_cases hnm : pyTruthy ev.databaseName = true <;> simp [hnm]
  · intro msg hav hlc
    simp [hav, hlc]

/-- C8 witness: a raising collection enumeration with a long error message is
truncated into the response. -/
theorem test_database_diagnostics_witness :
    DiagClaim exEnvErr exEv
    ∧ (testDatabase exEnvErr exEv).database
        = "❌ Error: " ++ String.take
            "ServerSelectionTimeoutError: connection refused after 30000 ms, timeout exceeded" 50 :=
  ⟨test_database_diagnostics exEnvErr exEv,
   ((test_database_diagnostics exEnvErr exEv).2.2.2
      "ServerSelectionTimeoutError: connection refused after 30000 ms, timeout exceeded"
      rfl rfl).1⟩

/-- C9: a pending payment whose stored base64 file content is the empty
string (exactly what registering a zero-byte file of an allowed MIME type
stores) is listed by `GET /admin/pending` with a null `file_url`, although
both the content field and the MIME field are present — the synthesis checks
Python truthiness, not field presence. -/
theorem pending_empty_file_null_url (s : Store) (p : PaymentDoc)
    (hp : p ∈ s.payments) (hst : p.status = "pending")
    (hdata : p.file_data_b64 = some "") (_hmime : p.file_mime.isSome = true) :
    mkPendingEntry p ∈ (listPending s).payments
    ∧ (mkPendingEntry p).file_url = none := by
  constructor
  · unfold listPending
    exact List.mem_map_of_mem _ (List.mem_filter.mpr ⟨hp, by simp [hst]⟩)
  · unfold mkPendingEntry
    simp [pyTruthy, hdata]

/-- C9 witness: the store obtained by registering with a zero-byte PNG holds
a payment with `file_data_b64 = some ""` and `file_mime` present, and the
pending listing shows it with a null `file_url`. -/
theorem pending_empty_file_null_url_witness :
    exEmptyPayment ∈ exStoreC9.payments
    ∧ exEmptyPayment.status = "pending"
    ∧ exEmptyPayment.file_data_b64 = some ""
    ∧ exEmptyPayment.file_mime.isSome = true
    ∧ mkPendingEntry exEmptyPayment ∈ (listPending exStoreC9).payments
    ∧ (mkPendingEntry exEmptyPayment).file_url = none :=
  ⟨by decide, rfl, rfl, rfl,
   (pending_empty_file_null_url exStoreC9 exEmptyPayment (by decide) rfl rfl rfl).1,
   (pending_empty_file_null_url exStoreC9 exEmptyPayment (by decide) rfl rfl rfl).2⟩

/-- C10: submitting a result with a valid status but attempt below 1 fails
`schemas.Test` validation (attempt is constrained `ge=1`), the request errors
(uncaught pydantic error, HTTP 500), and the store is unchanged — no Test and
no Certificate record is created. -/
theorem submit_result_invalid_attempt_rejected (body : ResultBody) (now : Nat)
    (today : Date) (s : Store)
    (hst : body.status = "pass" ∨ body.status = "fail")
    (hatt : body.attempt < 1) :
    submitResult body now today s
      = (s, Except.error (HandlerErr.uncaught "pydantic ValidationError: attempt ge=1")) := by
  unfold submitResult
  rw [if_pos hst]
  have hval : testSchemaValid body.attempt body.status = false := by
    unfold testSchemaValid
    simp [show ¬(1 ≤ body.attempt) from by omega]
  rw [hval]
  simp

/-- C10 witness: attempt 0 with status pass errors and leaves the store
empty. -/
theorem submit_result_invalid_attempt_rejected_witness :
    (exResultZero.status = "pass" ∨ exResultZero.status = "fail")
    ∧ exResultZero.attempt < 1
    ∧ submitResult exResultZero 3 exDate emptyStore
        = (emptyStore, Except.error (HandlerErr.uncaught "pydantic ValidationError: attempt ge=1")) :=
  ⟨Or.inl rfl, by decide,
   submit_result_invalid_attempt_rejected exResultZero 3 exDate emptyStore
     (Or.inl rfl) (by decide)⟩
